import Mathlib

/-!
Verification of the CEAP dashboard risk-scoring engine
(`scripts/prepare-data.py`) against its natural-language specification.

The Python source is shallowly embedded in Lean: monetary amounts and
scores are modelled as exact rationals `ℚ` (the score arithmetic in the
source only ever adds and clamps exact two-decimal constants), peer
statistics involving a square root are modelled over `ℝ`, and the Python
float-to-string digit extraction is modelled on finite decimal
representations.  Python `round(x, 2)` is modelled by `round2`; every
value it is applied to in the scoring pipeline is an exact multiple of
1/100, where all rounding modes agree.
-/

namespace CEAP

/-- Final risk tiers, matching the strings "CRITICO" / "ALTO" / "MEDIO" /
"BAIXO" used by `generate_deputies`. -/
inductive RiskLevel
  | critico
  | alto
  | medio
  | baixo
deriving DecidableEq, Repr

/-- Python `round(q, 2)`: round to two decimal places.  In the scoring
pipeline the argument is always an exact multiple of 1/100, where
round-half-even (Python) and round-half-up (Mathlib `round`) coincide. -/
def round2 (q : ℚ) : ℚ := ((round (q * 100) : ℤ) : ℚ) / 100

/-- Concentration classifier (lines 540-551 of `prepare-data.py`):
maps the HHI concentration index to the initial risk level and base
risk score via strict cut points. -/
def classifyHHI (hhiValue : ℚ) : RiskLevel × ℚ :=
  if 3000 < hhiValue then (RiskLevel.critico, 0.9)
  else if 2500 < hhiValue then (RiskLevel.alto, 0.7)
  else if 1500 < hhiValue then (RiskLevel.medio, 0.4)
  else (RiskLevel.baixo, 0.2)

/-- HHI lookup (lines 530-537): defaults to index 1500 with level label
"MEDIO" when the deputy has no row in the HHI table; a found row's level
string is uppercased. -/
def lookupHHI (hhiTable : List (String × ℚ × String)) (name : String) : ℚ × String :=
  match hhiTable.find? (fun r => r.1 == name) with
  | some r => (r.2.1, r.2.2.toUpper)
  | none => (1500, "MEDIO")

/-- Pass-1 risk score after the red-flag block (lines 607-618): base
score from the concentration classifier, then a clamped +0.10 when the
round-value percentage exceeds 20, then a clamped +0.15 when the Benford
test is significant. -/
def pass1Score (hhiValue roundValuePct : ℚ) (benfordSignificant : Bool) : ℚ :=
  let s0 := (classifyHHI hhiValue).2
  let s1 := if 20 < roundValuePct then min (s0 + 0.1) 1 else s0
  if benfordSignificant then min (s1 + 0.15) 1 else s1

/-- Per-deputy record, the fields of the `deputy` dict relevant to
filtering, peer statistics and risk scoring. -/
structure Deputy where
  name : String
  party : String
  uf : String
  totalSpending : ℚ
  transactionCount : ℕ
  hhiValue : ℚ
  roundValuePct : ℚ
  benfordSignificant : Bool
  topSupplierPct : Option ℚ
  riskScore : ℚ
  riskLevel : RiskLevel
  zScoreParty : ℚ
  zScoreState : ℚ
deriving DecidableEq, Repr

/-- Pass-1 construction of a deputy record (lines 509-673): the risk
score and level hold the concentration base adjusted by the round-value
and Benford penalties; z-scores are not yet set. -/
def mkDeputy (name party uf : String) (totalSpending : ℚ) (transactionCount : ℕ)
    (hhiValue roundValuePct : ℚ) (benfordSignificant : Bool)
    (topSupplierPct : Option ℚ) : Deputy :=
  { name := name
    party := party
    uf := uf
    totalSpending := totalSpending
    transactionCount := transactionCount
    hhiValue := hhiValue
    roundValuePct := roundValuePct
    benfordSignificant := benfordSignificant
    topSupplierPct := topSupplierPct
    riskScore := pass1Score hhiValue roundValuePct benfordSignificant
    riskLevel := (classifyHHI hhiValue).1
    zScoreParty := 0
    zScoreState := 0 }

/-- The top-supplier trigger of line 749: the top-supplier list is
nonempty and its head's share exceeds 50%. -/
def topTrigger : Option ℚ → Bool
  | none => false
  | some pct => decide (50 < pct)

/-- Final tier thresholds applied to the final clamped score
(lines 766-773). -/
def riskLevelOf (score : ℚ) : RiskLevel :=
  if 0.75 ≤ score then RiskLevel.critico
  else if 0.55 ≤ score then RiskLevel.alto
  else if 0.35 ≤ score then RiskLevel.medio
  else RiskLevel.baixo

/-- Pass-2 adjustment of one deputy (lines 726-773): unclamped +0.10 for
a top supplier above 50%, +0.08 for each positive peer z-score above 2,
then the final `min(round(s, 2), 1.0)` clamp, and the risk level is
recomputed from the final score, overwriting the pass-1 level. -/
def pass2Adjust (d : Deputy) (zParty zState : ℚ) : Deputy :=
  let s0 := d.riskScore
  let s1 := if topTrigger d.topSupplierPct then s0 + 0.10 else s0
  let s2 := if 2 < zParty then s1 + 0.08 else s1
  let s3 := if 2 < zState then s2 + 0.08 else s2
  let final := min (round2 s3) 1
  { d with
    riskScore := final
    riskLevel := riskLevelOf final
    zScoreParty := round2 zParty
    zScoreState := round2 zState }

/-- Modelled from the spec's composition rule (§4.5): additive,
order-independent, clamp only at the end, then round to two decimals.
This is the spec-side definition to be compared with the code-side
`pass2Adjust ∘ mkDeputy` score. -/
def specFinalScore (hhiValue roundValuePct : ℚ) (benfordSignificant : Bool)
    (topSupplierPct : Option ℚ) (zParty zState : ℚ) : ℚ :=
  round2 (min ((classifyHHI hhiValue).2
    + (if 20 < roundValuePct then 0.1 else 0)
    + (if benfordSignificant then 0.15 else 0)
    + (if topTrigger topSupplierPct then 0.10 else 0)
    + (if 2 < zParty then 0.08 else 0)
    + (if 2 < zState then 0.08 else 0)) 1)

lemma classify_cases (h : ℚ) :
    classifyHHI h = (RiskLevel.critico, 0.9) ∨ classifyHHI h = (RiskLevel.alto, 0.7)
      ∨ classifyHHI h = (RiskLevel.medio, 0.4) ∨ classifyHHI h = (RiskLevel.baixo, 0.2) := by
  unfold classifyHHI
  split_ifs <;> simp

lemma round2_mono {a b : ℚ} (hab : a ≤ b) : round2 a ≤ round2 b := by
  unfold round2
  have h1 : round (a * 100) ≤ round (b * 100) := by
    rw [round_eq, round_eq]
    exact Int.floor_mono (by linarith)
  have h2 : ((round (a * 100) : ℤ) : ℚ) ≤ ((round (b * 100) : ℤ) : ℚ) := by
    exact_mod_cast h1
  linarith

lemma round2_one : round2 1 = 1 := by
  have h : ((1 : ℚ) * 100) = ((100 : ℤ) : ℚ) := by norm_num
  rw [round2, h, round_intCast]
  norm_num

/-- Clamping to 1 after rounding a running sum that was itself clamped at
some intermediate steps agrees with clamping once at the end, provided
the two pre-clamp sums either coincide or have both passed 1. -/
lemma final_eq {A B : ℚ} (h : A = B ∨ (1 ≤ A ∧ 1 ≤ B)) :
    min (round2 A) 1 = round2 (min B 1) := by
  rcases h with h | ⟨hA, hB⟩
  · rw [h]
    rcases le_total B 1 with hB1 | hB1
    · rw [min_eq_left hB1, min_eq_left]
      calc round2 B ≤ round2 1 := round2_mono hB1
        _ = 1 := round2_one
    · have h1 : (1 : ℚ) ≤ round2 B := by
        calc (1 : ℚ) = round2 1 := round2_one.symm
          _ ≤ round2 B := round2_mono hB1
      rw [min_eq_right hB1, round2_one, min_eq_right h1]
  · have h1 : (1 : ℚ) ≤ round2 A := by
      calc (1 : ℚ) = round2 1 := round2_one.symm
        _ ≤ round2 A := round2_mono hA
    rw [min_eq_right hB, round2_one, min_eq_right h1]

set_option maxHeartbeats 2000000 in
lemma score_formula (name party uf : String) (sp : ℚ) (tc : ℕ) (hhi rp : ℚ)
    (sig : Bool) (top : Option ℚ) (zp zs : ℚ) :
    (pass2Adjust (mkDeputy name party uf sp tc hhi rp sig top) zp zs).riskScore
      = specFinalScore hhi rp sig top zp zs := by
  simp only [pass2Adjust, mkDeputy, pass1Score, specFinalScore]
  apply final_eq
  rcases classify_cases hhi with h | h | h | h <;> rw [h] <;> split_ifs <;>
    first
      | (left; norm_num [min_def]; done)
      | (right; constructor <;> norm_num [min_def])

/-! ### Activity filter and peer-group statistics (lines 677-743) -/

/-- Activity filter (lines 677-683): keep deputies with total spending
at least 50000 and at least 20 transactions. -/
def activeDeputies (ds : List Deputy) : List Deputy :=
  ds.filter (fun d => decide (50000 ≤ d.totalSpending) && decide (20 ≤ d.transactionCount))

/-- Spending values of one party group (lines 689-695), built from the
filtered deputies only. -/
def partySpendingValues (ds : List Deputy) (party : String) : List ℚ :=
  ((activeDeputies ds).filter (fun d => d.party == party)).map (fun d => d.totalSpending)

/-- Spending values of one state group (lines 708-713), built from the
filtered deputies only. -/
def stateSpendingValues (ds : List Deputy) (uf : String) : List ℚ :=
  ((activeDeputies ds).filter (fun d => d.uf == uf)).map (fun d => d.totalSpending)

/-- `np.mean` of a list of spends. -/
noncomputable def npMean (values : List ℝ) : ℝ := values.sum / values.length

/-- `np.std` (population standard deviation, the numpy default). -/
noncomputable def npStd (values : List ℝ) : ℝ :=
  Real.sqrt ((values.map (fun x => (x - npMean values) ^ 2)).sum / values.length)

/-- Peer-group statistics (lines 698-705 and 716-723): mean and standard
deviation of each group with at least two members, substituting std 1
when the std is not positive; a smaller group contributes its first
member (or 0) as mean with std 1. -/
noncomputable def groupStats (values : List ℝ) : ℝ × ℝ :=
  if 2 ≤ values.length then
    (npMean values, if 0 < npStd values then npStd values else 1)
  else (values.headD 0, 1)

/-- Peer z-score of one deputy against its group statistics
(lines 732-740). -/
noncomputable def zScore (spending : ℝ) (stats : ℝ × ℝ) : ℝ :=
  (spending - stats.1) / stats.2

/-! ### Round-number detector (lines 376-381 and 522-524) -/

/-- Python `%` on reals with a positive modulus: `a - b * ⌊a / b⌋`. -/
def pymod (a b : ℚ) : ℚ := a - b * ⌊a / b⌋

/-- `is_round_value`: NaN is not round; otherwise the value must be a
whole number and a multiple of 100. -/
def is_round_value (v : Option ℚ) : Bool :=
  match v with
  | none => false
  | some x => decide (pymod x 1 = 0) && decide (pymod x 100 = 0)

/-- Round-value percentage of a deputy's transactions (lines 522-524):
round count over all transactions, as a percentage. -/
def roundValuePct (values : List (Option ℚ)) : ℚ :=
  if values.length = 0 then 0
  else ((values.countP is_round_value : ℕ) : ℚ) / (values.length : ℚ) * 100

/-! ### First-digit extraction (lines 384-392)

Python works on the decimal string of the float; amounts are modelled as
signed finite decimals together with their printed form. -/

/-- A monetary amount as a signed finite decimal in its printed form:
sign, the digits of the integer part as printed (so `[0]` for a zero
integer part, never empty, no spurious leading zeros), and the printed
fractional digits (`0.05` is `⟨false, [0], [0, 5]⟩`, `-100.0` is
`⟨true, [1, 0, 0], []⟩`). -/
structure Decimal where
  neg : Bool
  intDigits : List ℕ
  fracDigits : List ℕ
deriving DecidableEq, Repr

/-- The integer part of a decimal as a natural number. -/
def Decimal.intVal (d : Decimal) : ℕ := Nat.ofDigits 10 d.intDigits.reverse

/-- Rational value of a decimal. -/
def Decimal.toRat (d : Decimal) : ℚ :=
  (if d.neg then -1 else 1)
    * ((d.intVal : ℚ) + (Nat.ofDigits 10 d.fracDigits.reverse : ℚ) / 10 ^ d.fracDigits.length)

/-- A character of the printed decimal: a digit or the decimal point. -/
inductive PyChar
  | digit (n : ℕ)
  | dot
deriving DecidableEq, Repr

/-- Printed form of the absolute value of a decimal, as Python prints a
float: integer digits, a dot, then the fractional digits, with a single
zero fractional digit when there are none ("100.0", "0.05"). -/
def Decimal.pyAbsChars (d : Decimal) : List PyChar :=
  d.intDigits.map PyChar.digit ++ [PyChar.dot]
    ++ (if d.fracDigits = [] then [PyChar.digit 0] else d.fracDigits.map PyChar.digit)

/-- Is the character the digit zero (what `lstrip` removes)? -/
def isZeroChar : PyChar → Bool
  | PyChar.digit 0 => true
  | PyChar.dot => false
  | PyChar.digit (_ + 1) => false

/-- `get_first_digit`: `None` for missing or non-positive amounts;
otherwise strip leading zero characters from the printed absolute value,
drop the decimal point, and read the first remaining character. -/
def get_first_digit (v : Option Decimal) : Option ℕ :=
  match v with
  | none => none
  | some d =>
    if d.toRat ≤ 0 then none
    else
      match ((d.pyAbsChars.dropWhile isZeroChar).filter (fun c => c != PyChar.dot)).head? with
      | some (PyChar.digit k) => some k
      | some PyChar.dot => none
      | none => none

/-- Modelled from the spec (§4.1): the first significant decimal digit
of the amount's absolute value, the reference against which
`get_first_digit` is checked. -/
def firstSignificantDigit (d : Decimal) : Option ℕ :=
  ((d.intDigits ++ d.fracDigits).filter (fun k => k != 0)).head?

/-! ### Benford digit-anomaly test (lines 395-458) -/

/-- Benford's expected leading-digit percentages. -/
def benfordExpected : ℕ → ℚ
  | 1 => 30.1
  | 2 => 17.6
  | 3 => 12.5
  | 4 => 9.7
  | 5 => 7.9
  | 6 => 6.7
  | 7 => 5.8
  | 8 => 5.1
  | 9 => 4.6
  | _ => 0

/-- Output of `calculate_benford_analysis`: statistic, bucketed p-value,
significance flag, and the digit/observed-pct/expected-pct table. -/
structure BenfordResult where
  chi2 : ℚ
  pValue : ℚ
  significant : Bool
  digitDistribution : List (ℕ × ℚ × ℚ)
deriving DecidableEq, Repr

/-- `calculate_benford_analysis` (lines 395-458): with fewer than 50
valid first digits, a neutral result with p-value 1.0; otherwise the
chi-squared statistic against the Benford distribution with bucketed
p-values 0.01 / 0.05 / 0.10 at critical values 20.09 and 15.51. -/
def calculate_benford_analysis (values : List (Option Decimal)) : BenfordResult :=
  let first_digits := values.filterMap get_first_digit
  if first_digits.length < 50 then
    { chi2 := 0
      pValue := 1.0
      significant := false
      digitDistribution := (List.range 9).map (fun i => (i + 1, 0, benfordExpected (i + 1))) }
  else
    let total : ℕ := ((List.range 9).map (fun i => first_digits.count (i + 1))).sum
    let chi2 : ℚ := ((List.range 9).map (fun i =>
      let oc : ℚ := (first_digits.count (i + 1) : ℕ)
      let ec : ℚ := (total : ℚ) * benfordExpected (i + 1) / 100
      if 0 < ec then (oc - ec) ^ 2 / ec else 0)).sum
    let dist := (List.range 9).map (fun i =>
      let op : ℚ := if 0 < total then (first_digits.count (i + 1) : ℚ) / (total : ℚ) * 100 else 0
      (i + 1, round2 op, benfordExpected (i + 1)))
    if 20.09 < chi2 then
      { chi2 := round2 chi2, pValue := 0.01, significant := true, digitDistribution := dist }
    else if 15.51 < chi2 then
      { chi2 := round2 chi2, pValue := 0.05, significant := true, digitDistribution := dist }
    else
      { chi2 := round2 chi2, pValue := 0.10, significant := false, digitDistribution := dist }

/-! ### Expense validation (lines 130-234) and the `main` gate
(lines 1105-1121) -/

/-- One transaction row: optional deputy name and value model pandas
nulls; year and month are integers; optional CNPJ. -/
structure ExpenseRow where
  deputy : Option String
  value : Option ℚ
  numAno : Int
  numMes : Int
  cnpj : Option String
deriving DecidableEq, Repr

/-- The expense dataframe: which of the alias columns exist, plus the
rows. -/
structure ExpensesDF where
  hasTxNomeParlamentar : Bool
  hasNomeParlamentar : Bool
  hasVlrLiquido : Bool
  hasVlrDocumento : Bool
  hasNumAno : Bool
  hasNumMes : Bool
  hasTxtCNPJCPF : Bool
  rows : List ExpenseRow
deriving DecidableEq, Repr

/-- Error messages appended to the `errors` list of
`validate_expenses`. -/
inductive VError
  | missingDeputyCol
  | missingValueCol
  | missingColumn (name : String)
  | invalidMonths (count : ℕ)
deriving DecidableEq, Repr

/-- Warning messages appended to the `warnings` list of
`validate_expenses`. -/
inductive VWarning
  | emptyDataframe
  | schemaIssue (msg : String)
  | negativeValues (count : ℕ)
  | nullValues (col : String) (count : ℕ)
  | unusualYearRange (minYear maxYear : Int)
  | emptyCnpj (count : ℕ)
deriving DecidableEq, Repr

/-- `validate_expenses` (lines 130-234).  Stage 2 (external Pydantic
sampling) only ever appends warnings, modelled by the `schemaWarnings`
parameter.  Stage 1 column errors return early; afterwards the only
check that appends to `errors` is the out-of-range month count, so
`is_valid` (no errors) fails exactly on invalid months. -/
def validate_expenses (df : ExpensesDF) (schemaWarnings : List VWarning) :
    Bool × List VError × List VWarning :=
  if df.rows.isEmpty then (true, [], [VWarning.emptyDataframe])
  else
    let stage1 : List VError :=
      (if df.hasTxNomeParlamentar || df.hasNomeParlamentar then [] else [VError.missingDeputyCol])
      ++ (if df.hasVlrLiquido || df.hasVlrDocumento then [] else [VError.missingValueCol])
      ++ (if df.hasNumAno then [] else [VError.missingColumn "numAno"])
      ++ (if df.hasNumMes then [] else [VError.missingColumn "numMes"])
    if stage1.isEmpty then
      let negCount := df.rows.countP (fun r =>
        match r.value with
        | some v => decide (v < 0)
        | none => false)
      let nullDeputy := df.rows.countP (fun r => r.deputy.isNone)
      let nullValue := df.rows.countP (fun r => r.value.isNone)
      let years := df.rows.map (fun r => r.numAno)
      let minYear := years.min?.getD 0
      let maxYear := years.max?.getD 0
      let invalidMonthCount := df.rows.countP (fun r =>
        decide (r.numMes < 1) || decide (12 < r.numMes))
      let emptyCnpjCount := df.rows.countP (fun r => r.cnpj.isNone)
      let warnings := schemaWarnings
        ++ (if 0 < negCount then [VWarning.negativeValues negCount] else [])
        ++ (if 0 < nullDeputy then [VWarning.nullValues "deputy" nullDeputy] else [])
        ++ (if 0 < nullValue then [VWarning.nullValues "value" nullValue] else [])
        ++ (if minYear < 2000 || 2030 < maxYear then [VWarning.unusualYearRange minYear maxYear]
            else [])
        ++ (if df.hasTxtCNPJCPF && 0 < emptyCnpjCount then [VWarning.emptyCnpj emptyCnpjCount]
            else [])
      let errors := if 0 < invalidMonthCount then [VError.invalidMonths invalidMonthCount] else []
      (errors.isEmpty, errors, warnings)
    else (false, stage1, [])

/-- The `main` gate (lines 1105-1121): processing continues past
validation iff `is_valid`. -/
def mainProceeds (df : ExpensesDF) (schemaWarnings : List VWarning) : Bool :=
  (validate_expenses df schemaWarnings).1

/-! ### Concrete fixtures used by witnesses and counterexamples -/

/-- A deputy at spend 49999 with 25 transactions. -/
def depA : Deputy :=
  { name := "A", party := "P1", uf := "SP", totalSpending := 49999, transactionCount := 25,
    hhiValue := 1000, roundValuePct := 0, benfordSignificant := false, topSupplierPct := none,
    riskScore := 0, riskLevel := RiskLevel.baixo, zScoreParty := 0, zScoreState := 0 }

/-- A deputy at spend 50000 with 19 transactions. -/
def depB : Deputy :=
  { name := "B", party := "P1", uf := "SP", totalSpending := 50000, transactionCount := 19,
    hhiValue := 1000, roundValuePct := 0, benfordSignificant := false, topSupplierPct := none,
    riskScore := 0, riskLevel := RiskLevel.baixo, zScoreParty := 0, zScoreState := 0 }

/-- A deputy at spend 50000 with 20 transactions. -/
def depC : Deputy :=
  { name := "C", party := "P1", uf := "SP", totalSpending := 50000, transactionCount := 20,
    hhiValue := 1000, roundValuePct := 0, benfordSignificant := false, topSupplierPct := none,
    riskScore := 0, riskLevel := RiskLevel.baixo, zScoreParty := 0, zScoreState := 0 }

/-- A dataframe with every required column and a single row whose month
is 13. -/
def dfBadMonth : ExpensesDF :=
  { hasTxNomeParlamentar := true, hasNomeParlamentar := false,
    hasVlrLiquido := true, hasVlrDocumento := false,
    hasNumAno := true, hasNumMes := true, hasTxtCNPJCPF := false,
    rows := [{ deputy := some "A", value := some 10, numAno := 2024, numMes := 13,
               cnpj := none }] }

/-- 49 transactions of amount 1.0. -/
def sample49 : List (Option Decimal) := List.replicate 49 (some ⟨false, [1], []⟩)

/-! ### Helper lemmas -/

lemma round2_zero : round2 0 = 0 := by
  have h : ((0 : ℚ) * 100) = ((0 : ℤ) : ℚ) := by norm_num
  rw [round2, h, round_intCast]
  norm_num

lemma riskLevelOf_iff (s : ℚ) :
    (riskLevelOf s = RiskLevel.critico ↔ 0.75 ≤ s)
  ∧ (riskLevelOf s = RiskLevel.alto ↔ 0.55 ≤ s ∧ s < 0.75)
  ∧ (riskLevelOf s = RiskLevel.medio ↔ 0.35 ≤ s ∧ s < 0.55)
  ∧ (riskLevelOf s = RiskLevel.baixo ↔ s < 0.35) := by
  unfold riskLevelOf
  split_ifs with h1 h2 h3
  · exact ⟨⟨fun _ => h1, fun _ => rfl⟩,
      ⟨fun h => absurd h (by decide), fun h => absurd h1 (by linarith [h.2])⟩,
      ⟨fun h => absurd h (by decide), fun h => absurd h1 (by linarith [h.2])⟩,
      ⟨fun h => absurd h (by decide), fun h => absurd h1 (by linarith [h])⟩⟩
  · exact ⟨⟨fun h => absurd h (by decide), fun h => absurd h h1⟩,
      ⟨fun _ => ⟨h2, not_le.mp h1⟩, fun _ => rfl⟩,
      ⟨fun h => absurd h (by decide), fun h => absurd h2 (by linarith [h.2])⟩,
      ⟨fun h => absurd h (by decide), fun h => absurd h2 (by linarith [h])⟩⟩
  · exact ⟨⟨fun h => absurd h (by decide), fun h => absurd h h1⟩,
      ⟨fun h => absurd h (by decide), fun h => absurd h.1 h2⟩,
      ⟨fun _ => ⟨h3, not_le.mp h2⟩, fun _ => rfl⟩,
      ⟨fun h => absurd h (by decide), fun h => absurd h3 (by linarith [h])⟩⟩
  · exact ⟨⟨fun h => absurd h (by decide), fun h => absurd h h1⟩,
      ⟨fun h => absurd h (by decide), fun h => absurd h.1 h2⟩,
      ⟨fun h => absurd h (by decide), fun h => absurd h.1 h3⟩,
      ⟨fun _ => not_le.mp h3, fun _ => rfl⟩⟩

lemma indicator_nonneg (P : Prop) [Decidable P] (w : ℚ) (hw : 0 ≤ w) :
    0 ≤ if P then w else 0 := by
  split_ifs <;> simp [hw]

lemma indicator_mono (P Q : Prop) [Decidable P] [Decidable Q] (w : ℚ) (hw : 0 ≤ w)
    (hpq : P → Q) : (if P then w else 0) ≤ if Q then w else 0 := by
  split_ifs with hp hq
  · exact le_rfl
  · exact absurd (hpq hp) hq
  · exact hw
  · exact le_rfl

lemma base_score_bounds (hhi : ℚ) : 0.2 ≤ (classifyHHI hhi).2 ∧ (classifyHHI hhi).2 ≤ 0.9 := by
  rcases classify_cases hhi with h | h | h | h <;> rw [h] <;> norm_num

lemma specFinalScore_bounds (hhi rp : ℚ) (sig : Bool) (top : Option ℚ) (zp zs : ℚ) :
    0 ≤ specFinalScore hhi rp sig top zp zs ∧ specFinalScore hhi rp sig top zp zs ≤ 1 := by
  unfold specFinalScore
  have hb := base_score_bounds hhi
  have h1 := indicator_nonneg (20 < rp) (0.1 : ℚ) (by norm_num)
  have h2 := indicator_nonneg (sig = true) (0.15 : ℚ) (by norm_num)
  have h3 := indicator_nonneg (topTrigger top = true) (0.10 : ℚ) (by norm_num)
  have h4 := indicator_nonneg (2 < zp) (0.08 : ℚ) (by norm_num)
  have h5 := indicator_nonneg (2 < zs) (0.08 : ℚ) (by norm_num)
  constructor
  · have h0 : (0 : ℚ) ≤ min ((classifyHHI hhi).2
        + (if 20 < rp then 0.1 else 0) + (if sig then 0.15 else 0)
        + (if topTrigger top then 0.10 else 0) + (if 2 < zp then 0.08 else 0)
        + (if 2 < zs then 0.08 else 0)) 1 :=
      le_min (by linarith [hb.1]) (by norm_num)
    calc (0 : ℚ) = round2 0 := round2_zero.symm
      _ ≤ _ := round2_mono h0
  · have h0 : min ((classifyHHI hhi).2
        + (if 20 < rp then 0.1 else 0) + (if sig then 0.15 else 0)
        + (if topTrigger top then 0.10 else 0) + (if 2 < zp then 0.08 else 0)
        + (if 2 < zs then 0.08 else 0)) 1 ≤ 1 := min_le_right _ _
    calc round2 _ ≤ round2 1 := round2_mono h0
      _ = 1 := round2_one

lemma specFinalScore_mono (hhi rp rp' : ℚ) (sig sig' : Bool) (top top' : Option ℚ)
    (zp zp' zs zs' : ℚ) (hrp : 20 < rp → 20 < rp') (hsig : sig = true → sig' = true)
    (htop : topTrigger top = true → topTrigger top' = true)
    (hzp : 2 < zp → 2 < zp') (hzs : 2 < zs → 2 < zs') :
    specFinalScore hhi rp sig top zp zs ≤ specFinalScore hhi rp' sig' top' zp' zs' := by
  unfold specFinalScore
  apply round2_mono
  apply min_le_min _ le_rfl
  have h1 := indicator_mono (20 < rp) (20 < rp') (0.1 : ℚ) (by norm_num) hrp
  have h2 := indicator_mono (sig = true) (sig' = true) (0.15 : ℚ) (by norm_num) hsig
  have h3 := indicator_mono (topTrigger top = true) (topTrigger top' = true) (0.10 : ℚ)
    (by norm_num) htop
  have h4 := indicator_mono (2 < zp) (2 < zp') (0.08 : ℚ) (by norm_num) hzp
  have h5 := indicator_mono (2 < zs) (2 < zs') (0.08 : ℚ) (by norm_num) hzs
  linarith

/-! ### Claim theorems -/

/-- C1: for every legislator, the final composite risk score the code
produces (with its intermediate per-step clamps in pass 1 and the final
`min(round(s, 2), 1.0)`) equals the clamp-only-at-the-end composition of
the spec: round to two decimals of the minimum of 1 and the raw sum of
the concentration base score and the five additive trigger penalties. -/
theorem C1_clamp_at_end_composition (name party uf : String) (sp : ℚ) (tc : ℕ)
    (hhi rp : ℚ) (sig : Bool) (top : Option ℚ) (zp zs : ℚ) :
    (pass2Adjust (mkDeputy name party uf sp tc hhi rp sig top) zp zs).riskScore
      = specFinalScore hhi rp sig top zp zs :=
  score_formula name party uf sp tc hhi rp sig top zp zs

/-- C2 counterexample: a legislator with no concentration-index row gets
the default index 1500, but the classifier then assigns base risk score
0.2 with level BAIXO, not the claimed MEDIUM/0.40 (the cut point at 1500
is strict). -/
theorem C2_counterexample :
    lookupHHI [] "Deputado X" = (1500, "MEDIO")
    ∧ classifyHHI (lookupHHI [] "Deputado X").1 ≠ (RiskLevel.medio, 0.4)
    ∧ classifyHHI (lookupHHI [] "Deputado X").1 = (RiskLevel.baixo, 0.2) := by
  refine ⟨rfl, ?_, ?_⟩ <;> norm_num [lookupHHI, classifyHHI, Prod.ext_iff]

/-- C2 amended: when no concentration index is available, the engine
substitutes the neutral default index 1500 with the displayed label
"MEDIO", and the classifier gives that legislator base risk score 0.20
with severity tier BAIXO (a total-function fallback, never an error). -/
theorem C2_default_hhi (tbl : List (String × ℚ × String)) (name : String)
    (h : tbl.find? (fun r => r.1 == name) = none) :
    lookupHHI tbl name = (1500, "MEDIO")
    ∧ classifyHHI (lookupHHI tbl name).1 = (RiskLevel.baixo, 0.2) := by
  unfold lookupHHI
  rw [h]
  exact ⟨rfl, by norm_num [classifyHHI]⟩

/-- C2 witness: the default path applied to the empty table. -/
theorem C2_default_hhi_witness :
    lookupHHI [] "Deputado X" = (1500, "MEDIO")
    ∧ classifyHHI (lookupHHI [] "Deputado X").1 = (RiskLevel.baixo, 0.2) :=
  C2_default_hhi [] "Deputado X" rfl

/-- C8: the final risk tier is recomputed from the final clamped score
through the four fixed cut points; the pass-1 concentration tier never
influences it; and each tier holds exactly on its score range. -/
theorem C8_tier_from_final_score (d : Deputy) (zp zs : ℚ) :
    ((pass2Adjust d zp zs).riskLevel = riskLevelOf ((pass2Adjust d zp zs).riskScore))
    ∧ (∀ lvl : RiskLevel,
        (pass2Adjust { d with riskLevel := lvl } zp zs).riskLevel
          = (pass2Adjust d zp zs).riskLevel)
    ∧ (∀ s : ℚ, (riskLevelOf s = RiskLevel.critico ↔ 0.75 ≤ s)
        ∧ (riskLevelOf s = RiskLevel.alto ↔ 0.55 ≤ s ∧ s < 0.75)
        ∧ (riskLevelOf s = RiskLevel.medio ↔ 0.35 ≤ s ∧ s < 0.55)
        ∧ (riskLevelOf s = RiskLevel.baixo ↔ s < 0.35)) :=
  ⟨rfl, fun _ => rfl, riskLevelOf_iff⟩

/-- C8 witness: the deterministic tier mapping at a concrete deputy and
score. -/
theorem C8_tier_from_final_score_witness :
    (pass2Adjust depC 0 0).riskLevel = riskLevelOf ((pass2Adjust depC 0 0).riskScore)
    ∧ (riskLevelOf 0.8 = RiskLevel.critico ↔ (0.75 : ℚ) ≤ 0.8) :=
  ⟨(C8_tier_from_final_score depC 0 0).1, ((C8_tier_from_final_score depC 0 0).2.2 0.8).1⟩

/-- C9: the final composite score always lies in [0, 1], and it is
monotone in each boolean evidence trigger: whenever each trigger of one
input configuration implies the corresponding trigger of another (same
concentration index), the final score does not decrease. -/
theorem C9_score_bounded_monotone :
    (∀ (name party uf : String) (sp : ℚ) (tc : ℕ) (hhi rp : ℚ) (sig : Bool)
        (top : Option ℚ) (zp zs : ℚ),
        0 ≤ (pass2Adjust (mkDeputy name party uf sp tc hhi rp sig top) zp zs).riskScore
        ∧ (pass2Adjust (mkDeputy name party uf sp tc hhi rp sig top) zp zs).riskScore ≤ 1)
    ∧ (∀ (name party uf : String) (sp : ℚ) (tc : ℕ) (hhi rp rp' : ℚ) (sig sig' : Bool)
        (top top' : Option ℚ) (zp zp' zs zs' : ℚ),
        (20 < rp → 20 < rp') → (sig = true → sig' = true) →
        (topTrigger top = true → topTrigger top' = true) →
        (2 < zp → 2 < zp') → (2 < zs → 2 < zs') →
        (pass2Adjust (mkDeputy name party uf sp tc hhi rp sig top) zp zs).riskScore
          ≤ (pass2Adjust (mkDeputy name party uf sp tc hhi rp' sig' top') zp' zs').riskScore) := by
  constructor
  · intro name party uf sp tc hhi rp sig top zp zs
    rw [score_formula]
    exact specFinalScore_bounds hhi rp sig top zp zs
  · intro name party uf sp tc hhi rp rp' sig sig' top top' zp zp' zs zs' hrp hsig htop hzp hzs
    rw [score_formula, score_formula]
    exact specFinalScore_mono hhi rp rp' sig sig' top top' zp zp' zs zs' hrp hsig htop hzp hzs

/-- C9 witness: turning every trigger on from the all-off configuration
does not decrease the score. -/
theorem C9_score_bounded_monotone_witness :
    (pass2Adjust (mkDeputy "N" "P" "U" 0 0 0 0 false none) 0 0).riskScore
      ≤ (pass2Adjust (mkDeputy "N" "P" "U" 0 0 0 21 true (some 60)) 3 3).riskScore :=
  C9_score_bounded_monotone.2 "N" "P" "U" 0 0 0 0 21 false true none (some 60) 0 3 0 3
    (fun h => by norm_num at h) (fun _ => rfl)
    (fun _ => by norm_num [topTrigger])
    (fun h => by norm_num) (fun h => by norm_num)

lemma filterMap_replicate_some {α β : Type} (f : α → Option β) (a : α) (b : β)
    (hf : f a = some b) (n : ℕ) :
    List.filterMap f (List.replicate n a) = List.replicate n b := by
  induction n with
  | zero => simp
  | succ n ih => simp [List.replicate_succ, List.filterMap_cons, hf, ih]

lemma get_first_digit_one : get_first_digit (some ⟨false, [1], []⟩) = some 1 := by
  have hpos : ¬(Decimal.toRat ⟨false, [1], []⟩ ≤ 0) := by
    norm_num [Decimal.toRat, Decimal.intVal, Nat.ofDigits]
  simp only [get_first_digit]
  rw [if_neg hpos]
  rfl

lemma sample49_digits : sample49.filterMap get_first_digit = List.replicate 49 1 := by
  rw [sample49, filterMap_replicate_some get_first_digit _ 1 get_first_digit_one]

/-- The small-sample branch of the digit-anomaly test. -/
lemma benford_small (values : List (Option Decimal))
    (h : (values.filterMap get_first_digit).length < 50) :
    calculate_benford_analysis values =
      { chi2 := 0
        pValue := 1.0
        significant := false
        digitDistribution :=
          (List.range 9).map (fun i => (i + 1, 0, benfordExpected (i + 1))) } := by
  simp only [calculate_benford_analysis]
  rw [if_pos h]

/-- C3 counterexample: on exactly 49 valid amounts the digit-anomaly
test reports p-value 1.0, not the claimed 0.10. -/
theorem C3_counterexample :
    (calculate_benford_analysis sample49).pValue = 1.0
    ∧ (calculate_benford_analysis sample49).pValue ≠ 0.10
    ∧ (calculate_benford_analysis sample49).significant = false
    ∧ (sample49.filterMap get_first_digit).length = 49 := by
  have h := benford_small sample49 (by rw [sample49_digits]; simp)
  refine ⟨by rw [h], by rw [h]; norm_num, by rw [h], by rw [sample49_digits]; simp⟩

/-- C3 amended: with fewer than 50 valid leading digits the test
returns significant = false, reported p-value 1.0, statistic 0, and
all-zero observed frequencies against the fixed Benford expected
distribution. -/
theorem C3_small_sample_neutral (values : List (Option Decimal))
    (h : (values.filterMap get_first_digit).length < 50) :
    calculate_benford_analysis values =
      { chi2 := 0
        pValue := 1.0
        significant := false
        digitDistribution :=
          (List.range 9).map (fun i => (i + 1, 0, benfordExpected (i + 1))) } :=
  benford_small values h

/-- C3 witness: the neutral small-sample branch on the 49-amount
fixture. -/
theorem C3_small_sample_neutral_witness :
    calculate_benford_analysis sample49 =
      { chi2 := 0
        pValue := 1.0
        significant := false
        digitDistribution :=
          (List.range 9).map (fun i => (i + 1, 0, benfordExpected (i + 1))) } :=
  C3_small_sample_neutral sample49 (by rw [sample49_digits]; simp)

/-- C4: evaluating the digit extraction at the amount 0.05 — the code
returns digit 0 (the fractional leading zero survives the string
manipulation), although the amount is positive and its first
significant digit is 5; so the extraction does not always return a
digit in 1-9 for positive amounts.  Missing, negative and zero amounts
are correctly excluded. -/
theorem C4_first_digit_zero_bug :
    get_first_digit (some ⟨false, [0], [0, 5]⟩) = some 0
    ∧ firstSignificantDigit ⟨false, [0], [0, 5]⟩ = some 5
    ∧ 0 < Decimal.toRat ⟨false, [0], [0, 5]⟩
    ∧ get_first_digit none = none
    ∧ get_first_digit (some ⟨true, [1, 0, 0], []⟩) = none
    ∧ get_first_digit (some ⟨false, [0], []⟩) = none := by
  have hv : Decimal.toRat ⟨false, [0], [0, 5]⟩ = 1 / 20 := by
    norm_num [Decimal.toRat, Decimal.intVal, Nat.ofDigits]
  have hneg : Decimal.toRat ⟨true, [1, 0, 0], []⟩ ≤ 0 := by
    norm_num [Decimal.toRat, Decimal.intVal, Nat.ofDigits]
  have hzero : Decimal.toRat ⟨false, [0], []⟩ ≤ 0 := by
    norm_num [Decimal.toRat, Decimal.intVal, Nat.ofDigits]
  refine ⟨?_, ?_, ?_, rfl, ?_, ?_⟩
  · have hpos : ¬(Decimal.toRat ⟨false, [0], [0, 5]⟩ ≤ 0) := by rw [hv]; norm_num
    simp only [get_first_digit]
    rw [if_neg hpos]
    rfl
  · simp [firstSignificantDigit, List.filter]
  · rw [hv]; norm_num
  · simp only [get_first_digit]
    rw [if_pos hneg]
  · simp only [get_first_digit]
    rw [if_pos hzero]

/-- C5 counterexample: one row with month 13 in a dataframe that has
every required column makes `is_valid` false — the record is counted as
an error, not a warning, and the `main` gate stops. -/
theorem C5_counterexample :
    (validate_expenses dfBadMonth []).1 = false
    ∧ (validate_expenses dfBadMonth []).2.1 = [VError.invalidMonths 1]
    ∧ mainProceeds dfBadMonth [] = false := by
  refine ⟨?_, ?_, ?_⟩ <;>
    norm_num [validate_expenses, mainProceeds, dfBadMonth, List.countP_cons, List.countP_nil]

lemma validate_expenses_valid_iff (df : ExpensesDF) (sw : List VWarning)
    (hne : df.rows ≠ [])
    (hd : (df.hasTxNomeParlamentar || df.hasNomeParlamentar) = true)
    (hv : (df.hasVlrLiquido || df.hasVlrDocumento) = true)
    (ha : df.hasNumAno = true) (hm : df.hasNumMes = true) :
    ((validate_expenses df sw).1 = false ↔ ∃ r ∈ df.rows, r.numMes < 1 ∨ 12 < r.numMes) := by
  have hrows : ¬(df.rows.isEmpty = true) := by simpa [List.isEmpty_iff] using hne
  simp only [validate_expenses]
  rw [if_neg hrows]
  simp only [hd, hv, ha, hm, if_true, List.nil_append, List.isEmpty_nil, if_pos]
  by_cases hc : 0 < df.rows.countP (fun r => decide (r.numMes < 1) || decide (12 < r.numMes))
  · rw [if_pos hc]
    simp only [List.isEmpty_cons, true_iff]
    have h2 := (List.countP_pos_iff).mp hc
    simpa [Bool.or_eq_true, decide_eq_true_eq] using h2
  · rw [if_neg hc]
    simp only [List.isEmpty_nil, Bool.true_eq_false, false_iff]
    intro h2
    exact hc ((List.countP_pos_iff).mpr (by simpa [Bool.or_eq_true, decide_eq_true_eq] using h2))

/-- C5 amended: out-of-range month values are the one data check that
is FATAL — with all required columns present, validation fails exactly
when some record's month is outside 1..12 (nulls, negative amounts and
odd years are only warnings); absence of the required columns is also
fatal via the early return. -/
theorem C5_invalid_months_fatal (df : ExpensesDF) (sw : List VWarning)
    (hne : df.rows ≠ [])
    (hd : (df.hasTxNomeParlamentar || df.hasNomeParlamentar) = true)
    (hv : (df.hasVlrLiquido || df.hasVlrDocumento) = true)
    (ha : df.hasNumAno = true) (hm : df.hasNumMes = true) :
    ((validate_expenses df sw).1 = false ↔ ∃ r ∈ df.rows, r.numMes < 1 ∨ 12 < r.numMes)
    ∧ (mainProceeds df sw = true ↔ ∀ r ∈ df.rows, 1 ≤ r.numMes ∧ r.numMes ≤ 12) := by
  have base := validate_expenses_valid_iff df sw hne hd hv ha hm
  refine ⟨base, ?_⟩
  unfold mainProceeds
  constructor
  · intro hp r hr
    by_contra hcon
    have : ∃ r ∈ df.rows, r.numMes < 1 ∨ 12 < r.numMes := ⟨r, hr, by omega⟩
    have hfalse := base.mpr this
    rw [hp] at hfalse
    exact absurd hfalse (by simp)
  · intro hall
    by_contra hp
    have hfalse : (validate_expenses df sw).1 = false := by
      cases hval : (validate_expenses df sw).1
      · rfl
      · exact absurd hval hp
    obtain ⟨r, hr, hbad⟩ := base.mp hfalse
    have := hall r hr
    omega

/-- C5 witness: the characterization applied to the bad-month
dataframe. -/
theorem C5_invalid_months_fatal_witness :
    ((validate_expenses dfBadMonth []).1 = false
      ↔ ∃ r ∈ dfBadMonth.rows, r.numMes < 1 ∨ 12 < r.numMes)
    ∧ (mainProceeds dfBadMonth [] = true
      ↔ ∀ r ∈ dfBadMonth.rows, 1 ≤ r.numMes ∧ r.numMes ≤ 12) :=
  C5_invalid_months_fatal dfBadMonth [] (by simp [dfBadMonth]) rfl rfl rfl rfl

lemma npMean_const (l : List ℝ) (c : ℝ) (hne : l ≠ []) (h : ∀ x ∈ l, x = c) :
    npMean l = c := by
  unfold npMean
  rw [List.sum_eq_card_nsmul l c h, nsmul_eq_mul]
  have hl : (l.length : ℝ) ≠ 0 :=
    Nat.cast_ne_zero.mpr (fun h0 => hne (List.length_eq_zero.mp h0))
  field_simp

lemma npStd_const (l : List ℝ) (c : ℝ) (hne : l ≠ []) (h : ∀ x ∈ l, x = c) :
    npStd l = 0 := by
  unfold npStd
  have hzero : (l.map (fun x => (x - npMean l) ^ 2)).sum = 0 := by
    apply List.sum_eq_zero
    intro y hy
    obtain ⟨x, hx, rfl⟩ := List.mem_map.mp hy
    rw [h x hx, npMean_const l c hne h]
    ring
  rw [hzero, zero_div, Real.sqrt_zero]

/-- C6: the peer z-score computation never divides by zero (the group
standard deviation actually used is never 0); a singleton group yields
z-score exactly 0; and a group whose members all share the same spend
yields z-score 0 for every member (std substituted by 1, numerator 0). -/
theorem C6_zscore_degenerate_safe :
    (∀ values : List ℝ, (groupStats values).2 ≠ 0)
    ∧ (∀ c : ℝ, zScore c (groupStats [c]) = 0)
    ∧ (∀ (values : List ℝ) (c : ℝ), values ≠ [] → (∀ x ∈ values, x = c) →
        ∀ x ∈ values, zScore x (groupStats values) = 0) := by
  refine ⟨?_, ?_, ?_⟩
  · intro vs
    unfold groupStats
    split_ifs with h1 h2
    · exact ne_of_gt h2
    · exact one_ne_zero
    · exact one_ne_zero
  · intro c
    simp [zScore, groupStats]
  · intro vs c hne hconst x hx
    have hxc := hconst x hx
    unfold zScore groupStats
    by_cases h2 : 2 ≤ vs.length
    · rw [if_pos h2]
      have hs := npStd_const vs c hne hconst
      have hm := npMean_const vs c hne hconst
      simp only [hs, lt_irrefl, if_false]
      rw [hm, hxc]
      simp
    · rw [if_neg h2]
      cases vs with
      | nil => exact absurd rfl hne
      | cons a t =>
        have ha := hconst a (by simp)
        simp [ha, hxc]

/-- C6 witness: a two-member group with identical spends has nonzero
divisor and zero z-score. -/
theorem C6_zscore_degenerate_safe_witness :
    (groupStats [(7 : ℝ), 7]).2 ≠ 0 ∧ zScore 7 (groupStats [(7 : ℝ), 7]) = 0 :=
  ⟨C6_zscore_degenerate_safe.1 [(7 : ℝ), 7],
    C6_zscore_degenerate_safe.2.2 [(7 : ℝ), 7] 7 (by simp) (by
      intro x hx
      simpa using hx) 7 (by simp)⟩

/-- C7: a deputy survives the activity filter iff it is in the input
population with total spend at least 50000 and at least 20
transactions; every value entering the party or state peer statistics
comes from a surviving deputy; and on the boundary fixtures only the
50000-spend 20-transaction deputy survives. -/
theorem C7_activity_filter :
    (∀ (ds : List Deputy) (d : Deputy),
        d ∈ activeDeputies ds
          ↔ d ∈ ds ∧ 50000 ≤ d.totalSpending ∧ 20 ≤ d.transactionCount)
    ∧ (∀ (ds : List Deputy) (p : String) (v : ℚ), v ∈ partySpendingValues ds p →
        ∃ d, d ∈ ds ∧ 50000 ≤ d.totalSpending ∧ 20 ≤ d.transactionCount
          ∧ d.party = p ∧ v = d.totalSpending)
    ∧ (∀ (ds : List Deputy) (u : String) (v : ℚ), v ∈ stateSpendingValues ds u →
        ∃ d, d ∈ ds ∧ 50000 ≤ d.totalSpending ∧ 20 ≤ d.transactionCount
          ∧ d.uf = u ∧ v = d.totalSpending)
    ∧ activeDeputies [depA, depB, depC] = [depC] := by
  have hmem : ∀ (ds : List Deputy) (d : Deputy),
      d ∈ activeDeputies ds
        ↔ d ∈ ds ∧ 50000 ≤ d.totalSpending ∧ 20 ≤ d.transactionCount := by
    intro ds d
    simp [activeDeputies, List.mem_filter, decide_eq_true_eq, and_assoc]
  refine ⟨hmem, ?_, ?_, ?_⟩
  · intro ds p v hv
    simp only [partySpendingValues, List.mem_map, List.mem_filter] at hv
    obtain ⟨d, ⟨hact, hparty⟩, hval⟩ := hv
    obtain ⟨hds, hsp, htc⟩ := (hmem ds d).mp hact
    exact ⟨d, hds, hsp, htc, by simpa using hparty, hval.symm⟩
  · intro ds u v hv
    simp only [stateSpendingValues, List.mem_map, List.mem_filter] at hv
    obtain ⟨d, ⟨hact, huf⟩, hval⟩ := hv
    obtain ⟨hds, hsp, htc⟩ := (hmem ds d).mp hact
    exact ⟨d, hds, hsp, htc, by simpa using huf, hval.symm⟩
  · decide

/-- C7 witness: the boundary deputy at exactly the two floors is
kept. -/
theorem C7_activity_filter_witness : depC ∈ activeDeputies [depC] :=
  (C7_activity_filter.1 [depC] depC).mpr
    ⟨by simp, by norm_num [depC], by norm_num [depC]⟩

lemma pymod_int_mul (b : ℚ) (k : ℤ) (hb : b ≠ 0) : pymod ((k : ℚ) * b) b = 0 := by
  unfold pymod
  rw [mul_div_cancel_right₀ _ hb, Int.floor_intCast]
  ring

lemma pymod_neg100_one : pymod (-100 : ℚ) 1 = 0 := by
  have h := pymod_int_mul 1 (-100) one_ne_zero
  norm_num at h
  exact h

lemma pymod_neg100_hundred : pymod (-100 : ℚ) 100 = 0 := by
  have h := pymod_int_mul 100 (-1) (by norm_num)
  norm_num at h
  exact h

lemma is_round_neg100 : is_round_value (some (-100 : ℚ)) = true := by
  simp only [is_round_value]
  rw [decide_eq_true pymod_neg100_one, decide_eq_true pymod_neg100_hundred]
  rfl

lemma is_round_37 : is_round_value (some (37 : ℚ)) = false := by
  have hfloor : ⌊(37 : ℚ) / 100⌋ = 0 := by
    rw [Int.floor_eq_iff]
    norm_num
  have h100 : pymod (37 : ℚ) 100 = 37 := by
    unfold pymod
    rw [hfloor]
    norm_num
  simp only [is_round_value]
  rw [decide_eq_false (by rw [h100]; norm_num : ¬(pymod (37 : ℚ) 100 = 0))]
  simp

lemma countP_replicate_true {α : Type} (p : α → Bool) (a : α) (ha : p a = true) (n : ℕ) :
    (List.replicate n a).countP p = n := by
  induction n with
  | zero => simp
  | succ n ih => simp [List.replicate_succ, List.countP_cons, ha, ih]

/-- C10: negative amounts are not excluded by the round-number
detector: any whole multiple of 100, negative included, is classified
round; −100.0 is round; it counts toward the round-value fraction; and
a batch of negative round amounts drives that fraction over the 20%
trigger used for the +0.10 penalty. -/
theorem C10_negative_round_counted :
    (∀ x : ℚ, x < 0 → pymod x 1 = 0 → pymod x 100 = 0 → is_round_value (some x) = true)
    ∧ is_round_value (some (-100 : ℚ)) = true
    ∧ roundValuePct [some (-100 : ℚ), some 37] = 50
    ∧ 20 < roundValuePct (List.replicate 25 (some (-100 : ℚ))) := by
  refine ⟨?_, is_round_neg100, ?_, ?_⟩
  · intro x _ h1 h100
    simp only [is_round_value]
    rw [decide_eq_true h1, decide_eq_true h100]
    rfl
  · unfold roundValuePct
    rw [if_neg (by norm_num)]
    simp only [List.countP_cons, List.countP_nil, is_round_neg100, is_round_37]
    norm_num
  · unfold roundValuePct
    rw [if_neg (by simp)]
    rw [countP_replicate_true is_round_value _ is_round_neg100 25]
    simp only [List.length_replicate]
    norm_num

/-- C10 witness: the general negative-round rule applied at −100. -/
theorem C10_negative_round_counted_witness : is_round_value (some (-100 : ℚ)) = true :=
  C10_negative_round_counted.1 (-100) (by norm_num) pymod_neg100_one pymod_neg100_hundred

end CEAP
